import Mathlib

/-!
Verification of the Wealthsimple API Python client
(`src/wealthsimple/wealthsimple.py`) against its specification.

The client is a thin wrapper over an HTTP session.  We embed it shallowly:

* JSON values are the inductive `Json`.
* The HTTP layer is abstracted as a `server : Request → Response` oracle;
  each client method builds the request exactly as the source does, passes
  it to the oracle and post-processes the response exactly as the source
  does.  Every method also returns the (unchanged or updated) session and
  the list of requests it issued, so that statements about "no network
  call", "exactly one POST" and header mutation can be expressed.
* Python exceptions become the `WSError` sum.  The source raises a bare
  `Exception` for the two login failures ("Missing login credentials",
  "Invalid login credentials") and a `NameError` for missing accounts; the
  specification names these `AuthenticationError` and `NotFoundError`, and
  the constructors below follow the specification's names while carrying
  the source's message strings.  `keyError` models a Python `KeyError`
  from indexing a dict with an absent key, and `typeError` models
  iterating a non-list JSON value.
* `pyotp.TOTP(key).now()` is time-dependent library code outside the
  repository; it enters the model as an abstract `totp : String → String`
  parameter.  No claim depends on its value.
-/

/-- JSON values, as produced by `response.json()`.  Python floats are
abstracted to integers, which is irrelevant to every claim considered. -/
inductive Json where
  | null : Json
  | bool : Bool → Json
  | num : Int → Json
  | str : String → Json
  | arr : List Json → Json
  | obj : List (String × Json) → Json

/-- Dictionary lookup `d[k]` / `d.get(k)` / `k in d`: the value of field
`k` when the JSON value is an object having it, `none` otherwise. -/
def Json.lookup (j : Json) (k : String) : Option Json :=
  match j with
  | .obj fields => (fields.find? (fun p => p.1 == k)).map (fun p => p.2)
  | _ => none

/-- Python equality test `json_value == python_string`: true exactly when
the JSON value is that string. -/
def Json.eqStr (j : Json) (t : String) : Bool :=
  match j with
  | .str u => u == t
  | _ => false

/-- Errors raised by the client.  Constructor names follow the
specification's error taxonomy; the carried strings are the source's
exception messages. -/
inductive WSError where
  | authenticationError : String → WSError
  | notFoundError : String → WSError
  | keyError : String → WSError
  | typeError : String → WSError
deriving DecidableEq

/-- Python iteration `for x in j` over a JSON value that is expected to
be a list (the only shape the client ever iterates). -/
def Json.asArr (j : Json) : Except WSError (List Json) :=
  match j with
  | .arr xs => .ok xs
  | _ => .error (.typeError "expected a JSON array")

/-- An HTTP request as the client builds it: the method, the full URL, the
optional JSON body, and the session headers in force when it is sent. -/
structure Request where
  method : String
  url : String
  body : Option Json
  headers : List (String × String)

/-- An HTTP response as the client consumes it: the status code, the
response headers, and the JSON-decoded body. -/
structure Response where
  status_code : Nat
  headers : List (String × String)
  body : Json

/-- Header lookup (`headers.get(k)` / `headers[k]`). -/
def getHeader (hs : List (String × String)) (k : String) : Option String :=
  (hs.find? (fun p => p.1 == k)).map (fun p => p.2)

/-- Header update (`headers.update({k: v})`): sets key `k` to `v`,
overwriting any previous binding. -/
def setHeader (hs : List (String × String)) (k v : String) : List (String × String) :=
  (k, v) :: hs.filter (fun p => p.1 != k)

/-- The mutable state of a `requests.Session`: its persisted headers.
`requests.session()` starts with no `Authorization` header; we model the
fresh session as having no headers at all (only `Authorization` is ever
read back). -/
structure Session where
  headers : List (String × String)

/-- `requests.session()`. -/
def Session.new : Session := ⟨[]⟩

/-- `session.get(url)`: issues one GET carrying the session headers;
returns the oracle's response together with the issued request. -/
def Session.get (s : Session) (server : Request → Response) (url : String) :
    Response × Request :=
  let req : Request := ⟨"GET", url, none, s.headers⟩
  (server req, req)

/-- `session.post(url, json=body)`. -/
def Session.post (s : Session) (server : Request → Response) (url : String)
    (body : Json) : Response × Request :=
  let req : Request := ⟨"POST", url, some body, s.headers⟩
  (server req, req)

/-- `session.delete(url)`. -/
def Session.delete (s : Session) (server : Request → Response) (url : String) :
    Response × Request :=
  let req : Request := ⟨"DELETE", url, none, s.headers⟩
  (server req, req)

/-- Python truthiness of an optional string argument (`if symbol:`):
false for `None` and for the empty string. -/
def pyTruthy (o : Option String) : Bool :=
  match o with
  | none => false
  | some s => s != ""

/-- The repeated source idiom `return res["results"]`. -/
def resultsOf (res : Response) : Except WSError Json :=
  match res.body.lookup "results" with
  | none => .error (.keyError "results")
  | some v => .ok v

namespace WS

/-- `self.baseURL`, set in `__init__`. -/
def baseURL : String := "https://trade-service.wealthsimple.com/"

/-- `WS.login`: checks the credentials for emptiness, computes a TOTP
code, POSTs `{email, password, otp}` to `auth/login`, fails on a 401,
and on success stores the `X-Access-Token` response header as the
session's `Authorization` header.  Returns the outcome, the session as
left by the call, and every request issued. -/
def login (s : Session) (server : Request → Response) (totp : String → String)
    (email password auth_secret_key : String) :
    Except WSError Unit × Session × List Request :=
  if email == "" || password == "" || auth_secret_key == "" then
    (.error (.authenticationError "Missing login credentials"), s, [])
  else
    let auth_token := totp auth_secret_key
    let req_body : Json := .obj
      [("email", .str email), ("password", .str password), ("otp", .str auth_token)]
    let (res, req) := s.post server (baseURL ++ "auth/login") req_body
    if res.status_code == 401 then
      (.error (.authenticationError "Invalid login credentials"), s, [req])
    else
      match getHeader res.headers "X-Access-Token" with
      | none => (.error (.keyError "X-Access-Token"), s, [req])
      | some tok =>
          (.ok (), ⟨setHeader s.headers "Authorization" tok⟩, [req])

/-- `WS.__init__`: creates a fresh session and immediately logs in.
Returns the constructed client's session on success, the raised error
otherwise, together with every request issued. -/
def init (server : Request → Response) (totp : String → String)
    (email password auth_secret_key : String) :
    Except WSError Session × List Request :=
  match login Session.new server totp email password auth_secret_key with
  | (.ok _, s, reqs) => (.ok s, reqs)
  | (.error e, _, reqs) => (.error e, reqs)

/-- The JSON value `{"refresh_token": headers.get("Authorization")}` that
`refresh_token` POSTs (`None` becomes JSON null). -/
def refreshTokenBody (s : Session) : Json :=
  .obj [("refresh_token",
    match getHeader s.headers "Authorization" with
    | some t => .str t
    | none => .null)]

/-- `WS.refresh_token`: POSTs the current token to `auth/refresh` and
returns the raw JSON response; the session is not modified. -/
def refresh_token (s : Session) (server : Request → Response) :
    Except WSError Json × Session × List Request :=
  let (res, req) := s.post server (baseURL ++ "auth/refresh") (refreshTokenBody s)
  (.ok res.body, s, [req])

/-- `WS.get_accounts`: GET `account/list`, return `res["results"]`. -/
def get_accounts (s : Session) (server : Request → Response) :
    Except WSError Json × Session × List Request :=
  let (res, req) := s.get server (baseURL ++ "account/list")
  (resultsOf res, s, [req])

/-- The list comprehension `[account["id"] for account in accounts]`:
projects each element to its `id` field, raising `KeyError` at the first
element lacking one. -/
def extractIds (accounts : List Json) : Except WSError (List Json) :=
  match accounts with
  | [] => .ok []
  | a :: rest =>
    match a.lookup "id" with
    | none => .error (.keyError "id")
    | some v => (extractIds rest).map (fun ids => v :: ids)

/-- `WS.get_account_ids`: fetches the accounts via `get_accounts` and
projects out the `id` fields; no further request is issued. -/
def get_account_ids (s : Session) (server : Request → Response) :
    Except WSError (List Json) × Session × List Request :=
  match get_accounts s server with
  | (.error e, s1, reqs) => (.error e, s1, reqs)
  | (.ok v, s1, reqs) =>
    match v.asArr with
    | .error e => (.error e, s1, reqs)
    | .ok user_accounts => (extractIds user_accounts, s1, reqs)

/-- The `for account in user_accounts: if account["id"] == account_id:
return account` loop of `get_account`, ending in
`raise NameError(...)` when the scan is exhausted. -/
def scanAccounts (account_id : String) (accounts : List Json) :
    Except WSError Json :=
  match accounts with
  | [] => .error (.notFoundError (account_id ++ " does not correspond to any account"))
  | a :: rest =>
    match a.lookup "id" with
    | none => .error (.keyError "id")
    | some v =>
      if v.eqStr account_id then .ok a else scanAccounts account_id rest

/-- `WS.get_account`: fetches the accounts and linearly scans them for
one whose `id` equals `account_id`; raises `NameError` if none does. -/
def get_account (s : Session) (server : Request → Response)
    (account_id : String) :
    Except WSError Json × Session × List Request :=
  match get_accounts s server with
  | (.error e, s1, reqs) => (.error e, s1, reqs)
  | (.ok v, s1, reqs) =>
    match v.asArr with
    | .error e => (.error e, s1, reqs)
    | .ok user_accounts => (scanAccounts account_id user_accounts, s1, reqs)

/-- `WS.get_account_history`: GET `account/history/{time}?account_id={id}`;
raises `NameError` when the body's `error` field equals
`"Record not found"`, otherwise returns `res["results"]`. -/
def get_account_history (s : Session) (server : Request → Response)
    (account_id : String) (time : String := "all") :
    Except WSError Json × Session × List Request :=
  let (res, req) := s.get server
    (baseURL ++ "account/history/" ++ time ++ "?account_id=" ++ account_id)
  let record_not_found :=
    match res.body.lookup "error" with
    | some v => v.eqStr "Record not found"
    | none => false
  if record_not_found then
    (.error (.notFoundError (account_id ++ " does not correspond to any account")), s, [req])
  else
    (resultsOf res, s, [req])

/-- The list comprehension
`[order for order in res["results"] if order["symbol"] == symbol]`:
keeps the orders whose `symbol` field equals `symbol`, raising
`KeyError` at the first order lacking the field. -/
def filterOrdersBySymbol (symbol : String) (orders : List Json) :
    Except WSError (List Json) :=
  match orders with
  | [] => .ok []
  | o :: rest =>
    match o.lookup "symbol" with
    | none => .error (.keyError "symbol")
    | some v =>
      match filterOrdersBySymbol symbol rest with
      | .error e => .error e
      | .ok xs => if v.eqStr symbol then .ok (o :: xs) else .ok xs

/-- `WS.get_orders`: GET `orders`; when `symbol` is truthy, filters the
`results` list by `symbol` equality, otherwise returns `res["results"]`
unmodified. -/
def get_orders (s : Session) (server : Request → Response)
    (symbol : Option String := none) :
    Except WSError Json × Session × List Request :=
  let (res, req) := s.get server (baseURL ++ "orders")
  if pyTruthy symbol then
    match resultsOf res with
    | .error e => (.error e, s, [req])
    | .ok v =>
      match v.asArr with
      | .error e => (.error e, s, [req])
      | .ok orders =>
        match filterOrdersBySymbol (symbol.getD "") orders with
        | .error e => (.error e, s, [req])
        | .ok filtered => (.ok (.arr filtered), s, [req])
  else
    (resultsOf res, s, [req])

/-- `WS.place_fractional_share_order`: POST `orders` with the fixed
order-type fields; returns the raw JSON response.  The Python float
`purchase_value` is abstracted to its JSON-encoded numeric value. -/
def place_fractional_share_order (s : Session) (server : Request → Response)
    (security_id account_id : String) (purchase_value : Int) :
    Except WSError Json × Session × List Request :=
  let order_type := "buy_value"
  let order_sub_type := "fractional"
  let time_in_force := "day"
  let req_body : Json := .obj
    [("security_id", .str security_id),
     ("order_type", .str order_type),
     ("order_sub_type", .str order_sub_type),
     ("market_value", .num purchase_value),
     ("time_in_force", .str time_in_force),
     ("account_id", .str account_id)]
  let (res, req) := s.post server (baseURL ++ "orders") req_body
  (.ok res.body, s, [req])

/-- `WS.cancel_order`: DELETE `orders/{order_id}`; raw response. -/
def cancel_order (s : Session) (server : Request → Response)
    (order_id : String) :
    Except WSError Json × Session × List Request :=
  let (res, req) := s.delete server (baseURL ++ "orders/" ++ order_id)
  (.ok res.body, s, [req])

/-- `WS.get_security`: GET `securities/{security_id}`; raw response. -/
def get_security (s : Session) (server : Request → Response)
    (security_id : String) :
    Except WSError Json × Session × List Request :=
  let (res, req) := s.get server (baseURL ++ "securities/" ++ security_id)
  (.ok res.body, s, [req])

/-- `WS.get_security_from_ticker`: GET `securities?query={symbol}`;
returns `res["results"]`. -/
def get_security_from_ticker (s : Session) (server : Request → Response)
    (symbol : String) :
    Except WSError Json × Session × List Request :=
  let (res, req) := s.get server (baseURL ++ "securities?query=" ++ symbol)
  (resultsOf res, s, [req])

/-- `WS.get_positions`: GET `account/positions?account_id={id}`;
returns `res["results"]`. -/
def get_positions (s : Session) (server : Request → Response)
    (account_id : String) :
    Except WSError Json × Session × List Request :=
  let (res, req) := s.get server (baseURL ++ "account/positions?account_id=" ++ account_id)
  (resultsOf res, s, [req])

/-- `WS.get_activities`: GET
`account/activities?limit={limit}&account_id{account_id}[&type={t}]`,
exactly as the source's format strings build it (note: the source's
format string has no equals sign between `account_id` and the
interpolated value); returns `res["results"]`.  The Python parameter
`account_id` is a list whose `str()` is interpolated; we take that
interpolated text as the string parameter, with default `"[]"`
matching the source's default `[]`. -/
def get_activities (s : Session) (server : Request → Response)
    (activity_type : Option String := none) (limit : Int := 20)
    (account_id : String := "[]") :
    Except WSError Json × Session × List Request :=
  if pyTruthy activity_type then
    let (res, req) := s.get server
      (baseURL ++ "account/activities?limit=" ++ toString limit ++
        "&account_id" ++ account_id ++ "&type=" ++ activity_type.getD "")
    (resultsOf res, s, [req])
  else
    let (res, req) := s.get server
      (baseURL ++ "account/activities?limit=" ++ toString limit ++
        "&account_id" ++ account_id)
    (resultsOf res, s, [req])

/-- `WS.get_me`: GET `me`; raw response. -/
def get_me (s : Session) (server : Request → Response) :
    Except WSError Json × Session × List Request :=
  let (res, req) := s.get server (baseURL ++ "me")
  (.ok res.body, s, [req])

/-- `WS.get_person`: GET `person`; raw response. -/
def get_person (s : Session) (server : Request → Response) :
    Except WSError Json × Session × List Request :=
  let (res, req) := s.get server (baseURL ++ "person")
  (.ok res.body, s, [req])

/-- `WS.get_bank_accounts`: GET `bank-accounts`; returns `res["results"]`. -/
def get_bank_accounts (s : Session) (server : Request → Response) :
    Except WSError Json × Session × List Request :=
  let (res, req) := s.get server (baseURL ++ "bank-accounts")
  (resultsOf res, s, [req])

/-- `WS.get_deposits`: GET `deposits`; returns `res["results"]`. -/
def get_deposits (s : Session) (server : Request → Response) :
    Except WSError Json × Session × List Request :=
  let (res, req) := s.get server (baseURL ++ "deposits")
  (resultsOf res, s, [req])

/-- `WS.get_forex`: GET `forex`; raw response. -/
def get_forex (s : Session) (server : Request → Response) :
    Except WSError Json × Session × List Request :=
  let (res, req) := s.get server (baseURL ++ "forex")
  (.ok res.body, s, [req])

end WS

/-! ## Helper lemmas -/

/-- `Json.eqStr` decides equality with a string value. -/
theorem Json.eqStr_eq_true_iff (v : Json) (t : String) :
    v.eqStr t = true ↔ v = Json.str t := by
  cases v <;> simp [Json.eqStr]

/-- A freshly written header reads back exactly as written. -/
theorem getHeader_setHeader (hs : List (String × String)) (k v : String) :
    getHeader (setHeader hs k v) k = some v := by
  simp [getHeader, setHeader]

/-! ## C1 -/

/-- C1: constructing the client with an empty email, password or
auth_secret_key fails with the authentication error
"Missing login credentials", and the list of requests issued is empty:
no HTTP request (in particular no TOTP-based login POST) happens before
the failure. -/
theorem init_empty_credential_fails (server : Request → Response)
    (totp : String → String) (email password auth_secret_key : String)
    (h : email = "" ∨ password = "" ∨ auth_secret_key = "") :
    WS.init server totp email password auth_secret_key =
      (.error (.authenticationError "Missing login credentials"), []) := by
  unfold WS.init WS.login
  rcases h with h | h | h <;> simp [h]

/-- C1 witness: an empty email is rejected with no request issued, for a
concrete server and TOTP oracle. -/
theorem init_empty_credential_fails_witness :
    WS.init (fun _ => ⟨200, [("X-Access-Token", "tok")], Json.null⟩)
        (fun _ => "123456") "" "hunter2" "SECRET" =
      (.error (.authenticationError "Missing login credentials"), []) :=
  init_empty_credential_fails _ _ _ _ _ (Or.inl rfl)

/-! ## C7 -/

/-- C7: when the server answers the login POST with status 401, login
fails with the authentication error "Invalid login credentials", exactly
one request is issued (the single login POST, no retry), and the session
is returned unchanged, so its Authorization header stays unset. -/
theorem login_unauthorized_fails (s : Session) (server : Request → Response)
    (totp : String → String) (email password auth_secret_key : String)
    (hemail : email ≠ "") (hpass : password ≠ "") (hkey : auth_secret_key ≠ "")
    (h401 : ∀ req, (server req).status_code = 401) :
    WS.login s server totp email password auth_secret_key =
      (.error (.authenticationError "Invalid login credentials"), s,
        [⟨"POST", WS.baseURL ++ "auth/login",
          some (.obj [("email", .str email), ("password", .str password),
            ("otp", .str (totp auth_secret_key))]), s.headers⟩]) := by
  unfold WS.login Session.post
  simp [hemail, hpass, hkey, h401]

/-- C7 witness: a concrete rejected login issues one POST, fails with the
authentication error, and leaves the fresh session's headers empty. -/
theorem login_unauthorized_fails_witness :
    WS.login Session.new (fun _ => ⟨401, [], Json.null⟩) (fun _ => "123456")
        "a@b.c" "hunter2" "SECRET" =
      (.error (.authenticationError "Invalid login credentials"), Session.new,
        [⟨"POST", WS.baseURL ++ "auth/login",
          some (.obj [("email", .str "a@b.c"), ("password", .str "hunter2"),
            ("otp", .str "123456")]), []⟩]) :=
  login_unauthorized_fails Session.new _ _ _ _ _
    (by decide) (by decide) (by decide) (fun _ => rfl)

/-! ## C2 -/

/-- C2: when the server's login response is not a 401 and carries the
access-token header value tok, login succeeds, the session's stored
Authorization header is exactly tok, and the next request issued through
that session (any GET, against any server) carries Authorization tok
verbatim. -/
theorem login_stores_access_token (s : Session)
    (server server2 : Request → Response) (totp : String → String)
    (email password auth_secret_key tok : String)
    (hemail : email ≠ "") (hpass : password ≠ "") (hkey : auth_secret_key ≠ "")
    (hstatus : ∀ req, (server req).status_code ≠ 401)
    (htok : ∀ req, getHeader (server req).headers "X-Access-Token" = some tok) :
    (WS.login s server totp email password auth_secret_key).1 = .ok () ∧
    getHeader (WS.login s server totp email password auth_secret_key).2.1.headers
      "Authorization" = some tok ∧
    ∀ url,
      getHeader
        (((WS.login s server totp email password auth_secret_key).2.1.get
          server2 url).2.headers) "Authorization" = some tok := by
  unfold WS.login Session.post Session.get
  simp [hemail, hpass, hkey, hstatus, htok, getHeader_setHeader]

/-- C2 witness: a concrete successful login stores the concrete token
from the X-Access-Token header, and a subsequent GET carries it. -/
theorem login_stores_access_token_witness :
    (WS.login Session.new
        (fun _ => ⟨200, [("X-Access-Token", "tok123")], Json.null⟩)
        (fun _ => "123456") "a@b.c" "hunter2" "SECRET").1 = .ok () ∧
    getHeader (WS.login Session.new
        (fun _ => ⟨200, [("X-Access-Token", "tok123")], Json.null⟩)
        (fun _ => "123456") "a@b.c" "hunter2" "SECRET").2.1.headers
      "Authorization" = some "tok123" ∧
    ∀ url,
      getHeader
        (((WS.login Session.new
            (fun _ => ⟨200, [("X-Access-Token", "tok123")], Json.null⟩)
            (fun _ => "123456") "a@b.c" "hunter2" "SECRET").2.1.get
          (fun _ => ⟨200, [], Json.null⟩) url).2.headers) "Authorization" =
        some "tok123" :=
  login_stores_access_token Session.new _ _ _ _ _ _ _
    (by decide) (by decide) (by decide) (fun _ => by decide) (fun _ => rfl)

open WS

/-! ## Helper lemmas for the account scan and projection -/

/-- Running `get_accounts` against a server whose responses carry
`accounts` in their `results` field. -/
theorem get_accounts_run (s : Session) (server : Request → Response)
    (accounts : List Json)
    (hres : ∀ req, (server req).body.lookup "results" = some (Json.arr accounts)) :
    WS.get_accounts s server =
      (.ok (Json.arr accounts), s,
        [⟨"GET", WS.baseURL ++ "account/list", none, s.headers⟩]) := by
  unfold WS.get_accounts Session.get resultsOf
  simp [hres]

/-- `get_account` reduces to the linear scan over the fetched list. -/
theorem get_account_run (s : Session) (server : Request → Response)
    (account_id : String) (accounts : List Json)
    (hres : ∀ req, (server req).body.lookup "results" = some (Json.arr accounts)) :
    WS.get_account s server account_id =
      (scanAccounts account_id accounts, s,
        [⟨"GET", WS.baseURL ++ "account/list", none, s.headers⟩]) := by
  unfold WS.get_account
  rw [get_accounts_run s server accounts hres]
  simp [Json.asArr]

/-- When every account has an `id` and some account's `id` is the target,
the scan returns a matching account. -/
theorem scanAccounts_found (account_id : String) :
    ∀ accounts : List Json,
      (∀ a ∈ accounts, (a.lookup "id").isSome) →
      (∃ a ∈ accounts, a.lookup "id" = some (Json.str account_id)) →
      ∃ a, a ∈ accounts ∧ a.lookup "id" = some (Json.str account_id) ∧
        scanAccounts account_id accounts = .ok a
  | [], _, hex => absurd hex (by simp)
  | a :: rest, hids, hex => by
    obtain ⟨v, hv⟩ := Option.isSome_iff_exists.mp (hids a (by simp))
    by_cases hm : v.eqStr account_id = true
    · refine ⟨a, by simp, ?_, by simp [scanAccounts, hv, hm]⟩
      rw [hv, (Json.eqStr_eq_true_iff v account_id).mp hm]
    · have hrest : ∃ b ∈ rest, b.lookup "id" = some (Json.str account_id) := by
        rcases hex with ⟨b, hb, hbid⟩
        rcases List.mem_cons.mp hb with rfl | hb2
        · rw [hv] at hbid
          exact absurd ((Json.eqStr_eq_true_iff v account_id).mpr
            (Option.some.inj hbid)) hm
        · exact ⟨b, hb2, hbid⟩
      obtain ⟨b, hb, hbid, hsc⟩ := scanAccounts_found account_id rest
        (fun x hx => hids x (by simp [hx])) hrest
      exact ⟨b, by simp [hb], hbid, by simp [scanAccounts, hv, hm, hsc]⟩

/-- When every account has an `id` and none matches, the scan raises the
not-found error with the source's message. -/
theorem scanAccounts_not_found (account_id : String) :
    ∀ accounts : List Json,
      (∀ a ∈ accounts, (a.lookup "id").isSome) →
      (∀ a ∈ accounts, a.lookup "id" ≠ some (Json.str account_id)) →
      scanAccounts account_id accounts =
        .error (.notFoundError (account_id ++ " does not correspond to any account"))
  | [], _, _ => rfl
  | a :: rest, hids, hno => by
    obtain ⟨v, hv⟩ := Option.isSome_iff_exists.mp (hids a (by simp))
    have hm : v.eqStr account_id = false := by
      cases h : v.eqStr account_id
      · rfl
      · exact absurd (by rw [hv, (Json.eqStr_eq_true_iff v account_id).mp h])
          (hno a (by simp))
    simp [scanAccounts, hv, hm,
      scanAccounts_not_found account_id rest (fun x hx => hids x (by simp [hx]))
        (fun x hx => hno x (by simp [hx]))]

/-! ## C3 -/

/-- C3: for an account list in which every element carries an `id`,
`get_account` returns a matching account object whenever some element's
`id` equals `account_id`, and fails with the not-found error (the
source's `NameError`) whenever no element's `id` matches. -/
theorem get_account_branches (s : Session) (server : Request → Response)
    (account_id : String) (accounts : List Json)
    (hres : ∀ req, (server req).body.lookup "results" = some (Json.arr accounts))
    (hids : ∀ a ∈ accounts, (a.lookup "id").isSome) :
    ((∃ a ∈ accounts, a.lookup "id" = some (Json.str account_id)) →
      ∃ a, a ∈ accounts ∧ a.lookup "id" = some (Json.str account_id) ∧
        (WS.get_account s server account_id).1 = .ok a) ∧
    ((∀ a ∈ accounts, a.lookup "id" ≠ some (Json.str account_id)) →
      (WS.get_account s server account_id).1 =
        .error (.notFoundError (account_id ++ " does not correspond to any account"))) := by
  have hrun := get_account_run s server account_id accounts hres
  constructor
  · intro hex
    obtain ⟨a, ha, hid, hsc⟩ := scanAccounts_found account_id accounts hids hex
    refine ⟨a, ha, hid, ?_⟩
    rw [hrun]
    exact hsc
  · intro hno
    rw [hrun]
    exact scanAccounts_not_found account_id accounts hids hno

/-- C3 witness: on a 3-element fixture, `get_account` finds the account
with id `a2`, and fails with the not-found error for the absent id `zz`. -/
theorem get_account_branches_witness :
    (∃ a, a ∈ [Json.obj [("id", Json.str "a1")],
          Json.obj [("id", Json.str "a2"), ("kind", Json.str "tfsa")],
          Json.obj [("id", Json.str "a3")]] ∧
        a.lookup "id" = some (Json.str "a2") ∧
        (WS.get_account ⟨[]⟩
          (fun _ => ⟨200, [],
            Json.obj [("results", Json.arr
              [Json.obj [("id", Json.str "a1")],
               Json.obj [("id", Json.str "a2"), ("kind", Json.str "tfsa")],
               Json.obj [("id", Json.str "a3")]])]⟩) "a2").1 = .ok a) ∧
    (WS.get_account ⟨[]⟩
        (fun _ => ⟨200, [],
          Json.obj [("results", Json.arr
            [Json.obj [("id", Json.str "a1")],
             Json.obj [("id", Json.str "a2"), ("kind", Json.str "tfsa")],
             Json.obj [("id", Json.str "a3")]])]⟩) "zz").1 =
      .error (.notFoundError ("zz" ++ " does not correspond to any account")) := by
  constructor
  · exact (get_account_branches ⟨[]⟩
      (fun _ => ⟨200, [],
        Json.obj [("results", Json.arr
          [Json.obj [("id", Json.str "a1")],
           Json.obj [("id", Json.str "a2"), ("kind", Json.str "tfsa")],
           Json.obj [("id", Json.str "a3")]])]⟩) "a2"
      [Json.obj [("id", Json.str "a1")],
       Json.obj [("id", Json.str "a2"), ("kind", Json.str "tfsa")],
       Json.obj [("id", Json.str "a3")]] (fun _ => rfl) (by decide)).1
      ⟨Json.obj [("id", Json.str "a2"), ("kind", Json.str "tfsa")], by simp, rfl⟩
  · refine (get_account_branches ⟨[]⟩
      (fun _ => ⟨200, [],
        Json.obj [("results", Json.arr
          [Json.obj [("id", Json.str "a1")],
           Json.obj [("id", Json.str "a2"), ("kind", Json.str "tfsa")],
           Json.obj [("id", Json.str "a3")]])]⟩) "zz"
      [Json.obj [("id", Json.str "a1")],
       Json.obj [("id", Json.str "a2"), ("kind", Json.str "tfsa")],
       Json.obj [("id", Json.str "a3")]] (fun _ => rfl) (by decide)).2 ?_
    intro a ha h
    simp only [List.mem_cons, List.not_mem_nil, or_false] at ha
    rcases ha with rfl | rfl | rfl
    · simp [Json.lookup, List.find?] at h
    · simp [Json.lookup, List.find?] at h
    · simp [Json.lookup, List.find?] at h

/-! ## C6 -/

/-- The projection succeeds and maps each account to its `id` field when
every account has one. -/
theorem extractIds_all_some :
    ∀ accounts : List Json,
      (∀ a ∈ accounts, (a.lookup "id").isSome) →
      extractIds accounts =
        .ok (accounts.map (fun a => (a.lookup "id").getD Json.null))
  | [], _ => rfl
  | a :: rest, hids => by
    obtain ⟨v, hv⟩ := Option.isSome_iff_exists.mp (hids a (by simp))
    simp [extractIds, hv, Except.map,
      extractIds_all_some rest (fun x hx => hids x (by simp [hx]))]

/-- C6: `get_account_ids` returns exactly the ordered `id`-projection of
the account list that `get_accounts` returns, and issues exactly the same
requests as `get_accounts` itself — the single GET of `account/list`, no
separate ids endpoint. -/
theorem get_account_ids_is_projection (s : Session) (server : Request → Response)
    (accounts : List Json)
    (hres : ∀ req, (server req).body.lookup "results" = some (Json.arr accounts))
    (hids : ∀ a ∈ accounts, (a.lookup "id").isSome) :
    (WS.get_accounts s server).1 = .ok (Json.arr accounts) ∧
    (WS.get_account_ids s server).1 =
      .ok (accounts.map (fun a => (a.lookup "id").getD Json.null)) ∧
    (WS.get_account_ids s server).2.2 = (WS.get_accounts s server).2.2 ∧
    (WS.get_account_ids s server).2.2 =
      [⟨"GET", WS.baseURL ++ "account/list", none, s.headers⟩] := by
  have hrun := get_accounts_run s server accounts hres
  have hids2 : WS.get_account_ids s server =
      (extractIds accounts, s,
        [⟨"GET", WS.baseURL ++ "account/list", none, s.headers⟩]) := by
    unfold WS.get_account_ids
    rw [hrun]
    simp [Json.asArr]
  refine ⟨by rw [hrun], ?_, ?_, ?_⟩
  · rw [hids2]
    exact extractIds_all_some accounts hids
  · rw [hids2, hrun]
  · rw [hids2]

/-- C6 witness: on a 2-element fixture, `get_account_ids` returns the two
ids in order and issues only the `account/list` GET. -/
theorem get_account_ids_is_projection_witness :
    (WS.get_accounts ⟨[]⟩
        (fun _ => ⟨200, [],
          Json.obj [("results", Json.arr
            [Json.obj [("id", Json.str "a1")],
             Json.obj [("id", Json.str "a2")]])]⟩)).1 =
      .ok (Json.arr [Json.obj [("id", Json.str "a1")],
        Json.obj [("id", Json.str "a2")]]) ∧
    (WS.get_account_ids ⟨[]⟩
        (fun _ => ⟨200, [],
          Json.obj [("results", Json.arr
            [Json.obj [("id", Json.str "a1")],
             Json.obj [("id", Json.str "a2")]])]⟩)).1 =
      .ok ([Json.obj [("id", Json.str "a1")],
        Json.obj [("id", Json.str "a2")]].map
          (fun a => (a.lookup "id").getD Json.null)) ∧
    (WS.get_account_ids ⟨[]⟩
        (fun _ => ⟨200, [],
          Json.obj [("results", Json.arr
            [Json.obj [("id", Json.str "a1")],
             Json.obj [("id", Json.str "a2")]])]⟩)).2.2 =
      (WS.get_accounts ⟨[]⟩
        (fun _ => ⟨200, [],
          Json.obj [("results", Json.arr
            [Json.obj [("id", Json.str "a1")],
             Json.obj [("id", Json.str "a2")]])]⟩)).2.2 ∧
    (WS.get_account_ids ⟨[]⟩
        (fun _ => ⟨200, [],
          Json.obj [("results", Json.arr
            [Json.obj [("id", Json.str "a1")],
             Json.obj [("id", Json.str "a2")]])]⟩)).2.2 =
      [⟨"GET", WS.baseURL ++ "account/list", none, []⟩] :=
  get_account_ids_is_projection ⟨[]⟩
    (fun _ => ⟨200, [],
      Json.obj [("results", Json.arr
        [Json.obj [("id", Json.str "a1")],
         Json.obj [("id", Json.str "a2")]])]⟩)
    [Json.obj [("id", Json.str "a1")], Json.obj [("id", Json.str "a2")]]
    (fun _ => rfl) (by decide)

/-! ## C4 -/

/-- C4: for any period string (in particular each of 1d, 1w, 1m, 3m, 1y,
all) and any account id, when the response body's `error` field equals
"Record not found", `get_account_history` fails with the not-found error;
for every other body it returns the body's `results` field. -/
theorem get_account_history_branches (s : Session) (server : Request → Response)
    (account_id period : String) (b : Json)
    (hres : ∀ req, (server req).body = b) :
    (b.lookup "error" = some (Json.str "Record not found") →
      (WS.get_account_history s server account_id period).1 =
        .error (.notFoundError (account_id ++ " does not correspond to any account"))) ∧
    (∀ r, b.lookup "error" ≠ some (Json.str "Record not found") →
      b.lookup "results" = some r →
      (WS.get_account_history s server account_id period).1 = .ok r) := by
  constructor
  · intro herr
    unfold WS.get_account_history Session.get
    simp [hres, herr, Json.eqStr]
  · intro r hne hr
    have hflag : (match b.lookup "error" with
        | some v => v.eqStr "Record not found"
        | none => false) = false := by
      cases h : b.lookup "error" with
      | none => rfl
      | some v =>
        cases hvt : v.eqStr "Record not found"
        · simp [hvt]
        · exact absurd (by
            rw [h, (Json.eqStr_eq_true_iff v "Record not found").mp hvt]) hne
    unfold WS.get_account_history Session.get resultsOf
    simp [hres, hflag, hr]

/-- C4 witness: with period 1d, the body consisting exactly of an `error`
field "Record not found" yields the not-found error, while a body whose
`error` field holds a different string yields its `results` field. -/
theorem get_account_history_branches_witness :
    (WS.get_account_history ⟨[]⟩
        (fun _ => ⟨200, [], Json.obj [("error", Json.str "Record not found")]⟩)
        "a1" "1d").1 =
      .error (.notFoundError ("a1" ++ " does not correspond to any account")) ∧
    (WS.get_account_history ⟨[]⟩
        (fun _ => ⟨200, [], Json.obj [("error", Json.str "rate limited"),
          ("results", Json.arr [Json.num 3])]⟩)
        "a1" "1d").1 = .ok (Json.arr [Json.num 3]) := by
  constructor
  · exact (get_account_history_branches ⟨[]⟩
      (fun _ => ⟨200, [], Json.obj [("error", Json.str "Record not found")]⟩)
      "a1" "1d" (Json.obj [("error", Json.str "Record not found")])
      (fun _ => rfl)).1 rfl
  · refine (get_account_history_branches ⟨[]⟩
      (fun _ => ⟨200, [], Json.obj [("error", Json.str "rate limited"),
        ("results", Json.arr [Json.num 3])]⟩)
      "a1" "1d" (Json.obj [("error", Json.str "rate limited"),
        ("results", Json.arr [Json.num 3])])
      (fun _ => rfl)).2 (Json.arr [Json.num 3]) ?_ rfl
    intro h
    simp [Json.lookup, List.find?] at h

/-! ## C5 -/

/-- When every order carries a `symbol` field, the comprehension is the
plain filter by symbol equality, in the original order. -/
theorem filterOrdersBySymbol_all_some (symbol : String) :
    ∀ orders : List Json,
      (∀ o ∈ orders, (o.lookup "symbol").isSome) →
      filterOrdersBySymbol symbol orders =
        .ok (orders.filter
          (fun o => (o.lookup "symbol").any (fun v => v.eqStr symbol)))
  | [], _ => rfl
  | o :: rest, hsym => by
    obtain ⟨v, hv⟩ := Option.isSome_iff_exists.mp (hsym o (by simp))
    have ih := filterOrdersBySymbol_all_some symbol rest
      (fun x hx => hsym x (by simp [hx]))
    cases hvt : v.eqStr symbol <;>
      simp [filterOrdersBySymbol, hv, ih, List.filter_cons, hvt]

/-- Running `get_orders` against a server whose responses carry `orders`
in their `results` field. -/
theorem get_orders_run (s : Session) (server : Request → Response)
    (symbol : Option String) (orders : List Json)
    (hres : ∀ req, (server req).body.lookup "results" = some (Json.arr orders)) :
    WS.get_orders s server symbol =
      ((if pyTruthy symbol then
          (filterOrdersBySymbol (symbol.getD "") orders).map Json.arr
        else .ok (Json.arr orders)), s,
        [⟨"GET", WS.baseURL ++ "orders", none, s.headers⟩]) := by
  unfold WS.get_orders Session.get resultsOf
  cases pyTruthy symbol
  · simp [hres]
  · simp [hres, Json.asArr]
    cases filterOrdersBySymbol (symbol.getD "") orders <;> simp [Except.map]

/-- C5: with a non-empty symbol argument, `get_orders` returns exactly
the subsequence of the fetched orders whose `symbol` field equals the
argument, in the original order; with no symbol argument it returns the
fetched list unmodified. -/
theorem get_orders_filters_by_symbol (s : Session) (server : Request → Response)
    (symbol : String) (orders : List Json)
    (hres : ∀ req, (server req).body.lookup "results" = some (Json.arr orders))
    (hsym : ∀ o ∈ orders, (o.lookup "symbol").isSome)
    (hne : symbol ≠ "") :
    (WS.get_orders s server (some symbol)).1 =
      .ok (Json.arr (orders.filter
        (fun o => (o.lookup "symbol").any (fun v => v.eqStr symbol)))) ∧
    (WS.get_orders s server none).1 = .ok (Json.arr orders) := by
  constructor
  · rw [get_orders_run s server (some symbol) orders hres]
    have ht : pyTruthy (some symbol) = true := by simp [pyTruthy, hne]
    simp [ht, filterOrdersBySymbol_all_some symbol orders hsym, Except.map]
  · rw [get_orders_run s server none orders hres]
    simp [pyTruthy]

/-- C5 witness: filtering a 3-element fixture by symbol AC keeps exactly
the two AC orders in order, and the no-symbol call returns all three. -/
theorem get_orders_filters_by_symbol_witness :
    (WS.get_orders ⟨[]⟩
        (fun _ => ⟨200, [],
          Json.obj [("results", Json.arr
            [Json.obj [("symbol", Json.str "AC"), ("n", Json.num 1)],
             Json.obj [("symbol", Json.str "BB"), ("n", Json.num 2)],
             Json.obj [("symbol", Json.str "AC"), ("n", Json.num 3)]])]⟩)
        (some "AC")).1 =
      .ok (Json.arr
        ([Json.obj [("symbol", Json.str "AC"), ("n", Json.num 1)],
          Json.obj [("symbol", Json.str "BB"), ("n", Json.num 2)],
          Json.obj [("symbol", Json.str "AC"), ("n", Json.num 3)]].filter
            (fun o => (o.lookup "symbol").any (fun v => v.eqStr "AC")))) ∧
    (WS.get_orders ⟨[]⟩
        (fun _ => ⟨200, [],
          Json.obj [("results", Json.arr
            [Json.obj [("symbol", Json.str "AC"), ("n", Json.num 1)],
             Json.obj [("symbol", Json.str "BB"), ("n", Json.num 2)],
             Json.obj [("symbol", Json.str "AC"), ("n", Json.num 3)]])]⟩)
        none).1 =
      .ok (Json.arr
        [Json.obj [("symbol", Json.str "AC"), ("n", Json.num 1)],
         Json.obj [("symbol", Json.str "BB"), ("n", Json.num 2)],
         Json.obj [("symbol", Json.str "AC"), ("n", Json.num 3)]]) :=
  get_orders_filters_by_symbol ⟨[]⟩
    (fun _ => ⟨200, [],
      Json.obj [("results", Json.arr
        [Json.obj [("symbol", Json.str "AC"), ("n", Json.num 1)],
         Json.obj [("symbol", Json.str "BB"), ("n", Json.num 2)],
         Json.obj [("symbol", Json.str "AC"), ("n", Json.num 3)]])]⟩)
    "AC"
    [Json.obj [("symbol", Json.str "AC"), ("n", Json.num 1)],
     Json.obj [("symbol", Json.str "BB"), ("n", Json.num 2)],
     Json.obj [("symbol", Json.str "AC"), ("n", Json.num 3)]]
    (fun _ => rfl) (by decide) (by decide)

/-! ## C10 -/

/-- C10: calling `get_orders` with the empty string as the symbol takes
the unfiltered branch — the call is identical to calling with no symbol,
and returns the full fetched list, not the subsequence of orders whose
`symbol` field is empty. -/
theorem get_orders_empty_symbol_unfiltered (s : Session)
    (server : Request → Response) (orders : List Json)
    (hres : ∀ req, (server req).body.lookup "results" = some (Json.arr orders)) :
    WS.get_orders s server (some "") = WS.get_orders s server none ∧
    (WS.get_orders s server (some "")).1 = .ok (Json.arr orders) := by
  have h1 : WS.get_orders s server (some "") = WS.get_orders s server none := by
    unfold WS.get_orders
    simp [pyTruthy]
  refine ⟨h1, ?_⟩
  rw [h1, get_orders_run s server none orders hres]
  simp [pyTruthy]

/-- C10 witness: on a fixture in which one order's symbol is the empty
string and another's is AC, the empty-symbol call returns the full
2-element list (the empty-symbol subsequence would have length 1). -/
theorem get_orders_empty_symbol_unfiltered_witness :
    WS.get_orders ⟨[]⟩
        (fun _ => ⟨200, [],
          Json.obj [("results", Json.arr
            [Json.obj [("symbol", Json.str "")],
             Json.obj [("symbol", Json.str "AC")]])]⟩) (some "") =
      WS.get_orders ⟨[]⟩
        (fun _ => ⟨200, [],
          Json.obj [("results", Json.arr
            [Json.obj [("symbol", Json.str "")],
             Json.obj [("symbol", Json.str "AC")]])]⟩) none ∧
    (WS.get_orders ⟨[]⟩
        (fun _ => ⟨200, [],
          Json.obj [("results", Json.arr
            [Json.obj [("symbol", Json.str "")],
             Json.obj [("symbol", Json.str "AC")]])]⟩) (some "")).1 =
      .ok (Json.arr
        [Json.obj [("symbol", Json.str "")],
         Json.obj [("symbol", Json.str "AC")]]) :=
  get_orders_empty_symbol_unfiltered ⟨[]⟩
    (fun _ => ⟨200, [],
      Json.obj [("results", Json.arr
        [Json.obj [("symbol", Json.str "")],
         Json.obj [("symbol", Json.str "AC")]])]⟩)
    [Json.obj [("symbol", Json.str "")], Json.obj [("symbol", Json.str "AC")]]
    (fun _ => rfl)

/-! ## C8 -/

/-- `get_account_ids` leaves the session exactly as it found it. -/
theorem session_after_get_account_ids (s : Session) (server : Request → Response) :
    (WS.get_account_ids s server).2.1 = s := by
  rcases h : WS.get_accounts s server with ⟨r, s1, reqs⟩
  have hs1 : s1 = s := by
    have h2 : (WS.get_accounts s server).2.1 = s := rfl
    rw [h] at h2
    exact h2
  subst hs1
  unfold WS.get_account_ids
  rw [h]
  cases r with
  | error e => rfl
  | ok v => rcases hv : v.asArr with e | l <;> simp [hv]

/-- `get_account` leaves the session exactly as it found it. -/
theorem session_after_get_account (s : Session) (server : Request → Response)
    (account_id : String) :
    (WS.get_account s server account_id).2.1 = s := by
  rcases h : WS.get_accounts s server with ⟨r, s1, reqs⟩
  have hs1 : s1 = s := by
    have h2 : (WS.get_accounts s server).2.1 = s := rfl
    rw [h] at h2
    exact h2
  subst hs1
  unfold WS.get_account
  rw [h]
  cases r with
  | error e => rfl
  | ok v => rcases hv : v.asArr with e | l <;> simp [hv]

/-- `get_account_history` leaves the session exactly as it found it. -/
theorem session_after_get_account_history (s : Session)
    (server : Request → Response) (account_id period : String) :
    (WS.get_account_history s server account_id period).2.1 = s := by
  unfold WS.get_account_history Session.get
  dsimp only
  split <;> rfl

/-- `get_orders` leaves the session exactly as it found it. -/
theorem session_after_get_orders (s : Session) (server : Request → Response)
    (symbol : Option String) :
    (WS.get_orders s server symbol).2.1 = s := by
  unfold WS.get_orders Session.get resultsOf
  (repeat' split) <;> rfl

/-- `get_activities` leaves the session exactly as it found it. -/
theorem session_after_get_activities (s : Session) (server : Request → Response)
    (activity_type : Option String) (limit : Int) (account_id : String) :
    (WS.get_activities s server activity_type limit account_id).2.1 = s := by
  unfold WS.get_activities Session.get
  (repeat' split) <;> rfl

/-- C8: the stored bearer token is written only by login: for every
session state and server, `refresh_token` returns the raw body of the
refresh POST without touching the session, and every endpoint method of
the client returns the session — hence its headers, in particular the
`Authorization` header — unchanged. -/
theorem token_written_only_at_login (s : Session) (server : Request → Response)
    (account_id period security_id order_id ticker pos_account act_account : String)
    (symbol activity_type : Option String) (limit purchase_value : Int) :
    (WS.refresh_token s server).1 =
      .ok ((server ⟨"POST", WS.baseURL ++ "auth/refresh",
        some (WS.refreshTokenBody s), s.headers⟩).body) ∧
    (WS.refresh_token s server).2.1 = s ∧
    (WS.get_accounts s server).2.1 = s ∧
    (WS.get_account_ids s server).2.1 = s ∧
    (WS.get_account s server account_id).2.1 = s ∧
    (WS.get_account_history s server account_id period).2.1 = s ∧
    (WS.get_orders s server symbol).2.1 = s ∧
    (WS.place_fractional_share_order s server security_id account_id
      purchase_value).2.1 = s ∧
    (WS.cancel_order s server order_id).2.1 = s ∧
    (WS.get_security s server security_id).2.1 = s ∧
    (WS.get_security_from_ticker s server ticker).2.1 = s ∧
    (WS.get_positions s server pos_account).2.1 = s ∧
    (WS.get_activities s server activity_type limit act_account).2.1 = s ∧
    (WS.get_me s server).2.1 = s ∧
    (WS.get_person s server).2.1 = s ∧
    (WS.get_bank_accounts s server).2.1 = s ∧
    (WS.get_deposits s server).2.1 = s ∧
    (WS.get_forex s server).2.1 = s :=
  ⟨rfl, rfl, rfl,
    session_after_get_account_ids s server,
    session_after_get_account s server account_id,
    session_after_get_account_history s server account_id period,
    session_after_get_orders s server symbol,
    rfl, rfl, rfl, rfl, rfl,
    session_after_get_activities s server activity_type limit act_account,
    rfl, rfl, rfl, rfl, rfl⟩

/-! ## C9 -/

/-- C9: evaluated at `limit = 20`, `account_id` text `b2c3`, the query
string the code actually issues is
`account/activities?limit=20&account_idb2c3` — the source's format
string `account/activities?limit={}&account_id{}` has no equals sign
between `account_id` and the interpolated value, contradicting the
specified shape `account/activities?limit=20&account_id=b2c3`; the
optional `&type=` suffix and the unwrapping of the `results` field do
behave as specified. -/
theorem get_activities_query_lacks_equals :
    (WS.get_activities ⟨[]⟩
        (fun _ => ⟨200, [], Json.obj [("results", Json.arr [])]⟩)
        none 20 "b2c3").2.2 =
      [⟨"GET",
        "https://trade-service.wealthsimple.com/account/activities?limit=20&account_idb2c3",
        none, []⟩] ∧
    (WS.get_activities ⟨[]⟩
        (fun _ => ⟨200, [], Json.obj [("results", Json.arr [])]⟩)
        (some "buy") 20 "b2c3").2.2 =
      [⟨"GET",
        "https://trade-service.wealthsimple.com/account/activities?limit=20&account_idb2c3&type=buy",
        none, []⟩] ∧
    (WS.get_activities ⟨[]⟩
        (fun _ => ⟨200, [], Json.obj [("results", Json.arr [])]⟩)
        none 20 "b2c3").1 = .ok (Json.arr []) :=
  ⟨rfl, rfl, rfl⟩
